import Mathlib

/-!
Verification of the resumable concurrent task-processing subsystem of the
`to-md` repository (`to_md/task_scheduler.py`, checkpoint I/O from
`to_md/logger.py`) against its natural-language specification.

The Python code is shallowly embedded: the scheduler state (the three lists
`completed_files` / `pending_files` / `failed_files`), queue construction,
checkpoint restore, the per-task unit `_process_file`, and the result-processing
loop of `process_queue` become pure Lean functions.  The thread pool is
modelled by an explicit arrival order `order : List FileInfo` (the order in
which `concurrent.futures.as_completed` yields the futures), which for a real
run is a permutation of the pending list.  File-system and converter effects
are an explicit environment `Env`.  Result dictionaries returned by
`process_queue` are modelled as association lists `List (String × Nat)`,
matching the literal dict the Python code builds.
-/

namespace ToMd

/-- One file descriptor, as produced by the scanner and consumed by
`TaskScheduler`: the fields `path`, `output_path` and `size` of the Python
file-info dict (the only keys the scheduler reads). -/
structure FileInfo where
  path : String
  output_path : String
  size : Nat
  deriving DecidableEq, Repr

/-- The `status` string of a result dict: `'success'`, `'failure'` or
`'skipped'` (the only values produced by `_process_file` /
`ConversionEngine.convert_file`). -/
inductive Status where
  | success
  | failure
  | skipped
  deriving DecidableEq, Repr

/-- The result dict produced once per descriptor per attempt
(`task_scheduler.py` lines 181-200, `conversion_engine.py`). -/
structure TaskResult where
  file_info : FileInfo
  status : Status
  message : String
  duration : ℚ
  output_path : Option String
  deriving DecidableEq, Repr

/-- A parsed checkpoint file (`logger.py` `save_checkpoint`):
`{timestamp, completed, pending}`. -/
structure Checkpoint where
  timestamp : String
  completed : List FileInfo
  pending : List FileInfo
  deriving DecidableEq, Repr

/-- The mutable state of `TaskScheduler`: the three lists initialised empty in
`__init__` (`task_scheduler.py` lines 34-36). -/
structure SchedulerState where
  completed_files : List FileInfo
  pending_files : List FileInfo
  failed_files : List FileInfo
  deriving DecidableEq, Repr

/-- The scheduler state right after `TaskScheduler.__init__`. -/
def initState : SchedulerState := ⟨[], [], []⟩

/-- The possible states of the checkpoint file on disk, as distinguished by
`LogManager.load_checkpoint` (`logger.py` lines 189-203): the file may be
missing, unreadable (`IOError`), malformed (`json.JSONDecodeError`), or may
parse to checkpoint data. -/
inductive CheckpointFileState where
  | missing
  | unreadable (msg : String)
  | malformed (msg : String)
  | readable (cp : Checkpoint)

/-- `LogManager.load_checkpoint` (`logger.py` lines 189-203): returns the
parsed data when the file exists and parses; on `JSONDecodeError` or `IOError`
it logs a warning and returns `None`; when the file does not exist it returns
`None`. -/
def load_checkpoint : CheckpointFileState → Option Checkpoint
  | .missing => none
  | .unreadable _ => none
  | .malformed _ => none
  | .readable cp => some cp

/-- The sort key relation of `create_task_queue`
(`self.pending_files.sort(key=lambda x: x.get('size', 0))`). -/
def bySize (a b : FileInfo) : Prop := a.size ≤ b.size

instance : DecidableRel bySize := fun a b => inferInstanceAs (Decidable (a.size ≤ b.size))

instance : IsTotal FileInfo bySize := ⟨fun a b => Nat.le_total a.size b.size⟩

instance : IsTrans FileInfo bySize := ⟨fun _ _ _ hab hbc => Nat.le_trans hab hbc⟩

/-- Python's `list.sort(key=...)` is a stable ascending sort; a stable sort is
extensionally unique, so it is modelled by insertion sort on `bySize`. -/
def sortBySize (l : List FileInfo) : List FileInfo := l.insertionSort bySize

/-- `TaskScheduler._restore_from_checkpoint` (`task_scheduler.py` lines 56-68):
collect the paths of the checkpoint's completed entries, set
`completed_files` to the pending files whose path is among them, and keep as
`pending_files` the rest.  Both list comprehensions read the pre-assignment
`pending_files`. -/
def restore_from_checkpoint (s : SchedulerState) (cp : Checkpoint) : SchedulerState :=
  let completed_paths := cp.completed.map (fun f => f.path)
  { s with
    completed_files := s.pending_files.filter (fun f => completed_paths.contains f.path),
    pending_files := s.pending_files.filter (fun f => !(completed_paths.contains f.path)) }

/-- `TaskScheduler.create_task_queue` up to but excluding the final sort
(`task_scheduler.py` lines 45-51): copy the input list into `pending_files`,
then restore from the checkpoint if one loaded. -/
def queue_before_sort (s : SchedulerState) (checkpoint : Option Checkpoint)
    (file_list : List FileInfo) : SchedulerState :=
  let s1 := { s with pending_files := file_list }
  match checkpoint with
  | some cp => restore_from_checkpoint s1 cp
  | none => s1

/-- `TaskScheduler.create_task_queue` (`task_scheduler.py` lines 38-54); the
loaded checkpoint (result of `load_checkpoint`) is passed explicitly. -/
def create_task_queue (s : SchedulerState) (checkpoint : Option Checkpoint)
    (file_list : List FileInfo) : SchedulerState :=
  let s2 := queue_before_sort s checkpoint file_list
  { s2 with pending_files := sortBySize s2.pending_files }

/-- The effectful context a run executes in: `os.path.exists` on the output
medium, the `overwrite` config flag (`config.get('overwrite', False)`), and the
converter, which either returns a result dict or raises
(`ConversionEngine.convert_file`). -/
structure Env where
  output_exists : String → Bool
  overwrite : Bool
  convert_file : FileInfo → Except String TaskResult

/-- `TaskScheduler._process_file` (`task_scheduler.py` lines 169-200),
instrumented with the number of `conversion_engine.convert_file` invocations
(second component): if the output path exists and overwrite is not set, return
a skipped result without calling the converter; otherwise call the converter,
catching any raised exception into a failure result. -/
def process_file_instr (env : Env) (fi : FileInfo) : TaskResult × Nat :=
  if env.output_exists fi.output_path && !env.overwrite then
    ({ file_info := fi, status := Status.skipped, message := "输出文件已存在",
       duration := 0, output_path := some fi.output_path }, 0)
  else
    match env.convert_file fi with
    | Except.ok r => (r, 1)
    | Except.error e =>
        ({ file_info := fi, status := Status.failure,
           message := "处理文件时出错: " ++ e, duration := 0, output_path := none }, 1)

/-- The result dict `_process_file` returns. -/
def process_file (env : Env) (fi : FileInfo) : TaskResult :=
  (process_file_instr env fi).1

/-- The body of the result loop of `process_queue` (`task_scheduler.py` lines
122-126): on `'success'` append the file info to `completed_files`, on
`'failure'` append it to `failed_files`, otherwise (in particular `'skipped'`)
leave all three lists unchanged.  Nothing is ever removed from
`pending_files`. -/
def process_result (env : Env) (s : SchedulerState) (fi : FileInfo) : SchedulerState :=
  let result := process_file env fi
  if result.status == Status.success then
    { s with completed_files := s.completed_files ++ [fi] }
  else if result.status == Status.failure then
    { s with failed_files := s.failed_files ++ [fi] }
  else
    s

/-- The summary dict literal returned on the early exit of `process_queue`
(`task_scheduler.py` line 84). -/
def emptySummary : List (String × Nat) :=
  [("success", 0), ("failure", 0), ("skipped", 0), ("total", 0)]

/-- The summary dict literal built at the end of `process_queue`
(`task_scheduler.py` lines 162-167): the lengths of the final lists, with
`"skipped"` the literal `0`. -/
def runSummary (s : SchedulerState) : List (String × Nat) :=
  [("success", s.completed_files.length),
   ("failure", s.failed_files.length),
   ("skipped", 0),
   ("total", s.pending_files.length)]

/-- `TaskScheduler.process_queue` on an uninterrupted run (`task_scheduler.py`
lines 74-167).  `order` is the completion order in which
`concurrent.futures.as_completed` yields the submitted futures (a permutation
of `pending_files` in a real run).  Returns the final state, the summary dict,
and whether a `ThreadPoolExecutor` worker pool was created (instrumentation for
the early-exit branch at lines 81-84).  Checkpoint saves and progress-bar
updates are effects on collaborators and do not touch the returned data. -/
def process_queue (env : Env) (order : List FileInfo) (s : SchedulerState) :
    SchedulerState × List (String × Nat) × Bool :=
  if s.pending_files.isEmpty then
    (s, emptySummary, false)
  else
    let s2 := order.foldl (process_result env) s
    (s2, runSummary s2, true)

/-- `TaskScheduler.track_progress` (`task_scheduler.py` lines 208-222), with
the `progress` fraction left out (it is a float; all claims concern the
counts). -/
def track_progress (s : SchedulerState) : List (String × Nat) :=
  [("total", s.pending_files.length + s.completed_files.length + s.failed_files.length),
   ("completed", s.completed_files.length),
   ("pending", s.pending_files.length),
   ("failed", s.failed_files.length)]

/-! ### Concrete fixtures used by witnesses and counterexamples -/

/-- Descriptor of size 300. -/
def fA : FileInfo := ⟨"a.txt", "out/a.md", 300⟩

/-- Descriptor of size 10. -/
def fB : FileInfo := ⟨"b.txt", "out/b.md", 10⟩

/-- Descriptor of size 200. -/
def fC : FileInfo := ⟨"c.txt", "out/c.md", 200⟩

/-- A successful converter result for `fi`. -/
def okResult (fi : FileInfo) : TaskResult :=
  ⟨fi, Status.success, "文件已成功转换", 5, some fi.output_path⟩

/-- Environment where no output exists and every conversion succeeds. -/
def envAllSuccess : Env :=
  { output_exists := fun _ => false, overwrite := false,
    convert_file := fun fi => Except.ok (okResult fi) }

/-- Environment where every output path already exists and overwrite is off,
so every task hits the skip branch. -/
def envSkip : Env :=
  { output_exists := fun _ => true, overwrite := false,
    convert_file := fun fi => Except.ok (okResult fi) }

/-- Environment where no output exists and the converter raises on every
file. -/
def envRaise : Env :=
  { output_exists := fun _ => false, overwrite := false,
    convert_file := fun _ => Except.error "磁盘读取失败" }

/-- A scheduler state with the single descriptor `fB` pending. -/
def sOne : SchedulerState := ⟨[], [fB], []⟩

/-- A scheduler state after a checkpoint restore marked everything completed:
`fA` completed, nothing pending. -/
def sDone : SchedulerState := ⟨[fA], [], []⟩

/-- The final scheduler state of a fully successful uninterrupted run over the
two-descriptor input `[fB, fC]` with no checkpoint. -/
def c1_run : SchedulerState :=
  (process_queue envAllSuccess [fB, fC] (create_task_queue initState none [fB, fC])).1

/-! ### Helper lemmas -/

/-- Closed form of the result loop: the loop appends to `completed_files`
exactly the processed files whose result is a success, in arrival order,
appends to `failed_files` exactly those whose result is a failure, and leaves
`pending_files` untouched. -/
theorem foldl_process_result (env : Env) :
    ∀ (order : List FileInfo) (s : SchedulerState),
      order.foldl (process_result env) s =
        ⟨s.completed_files ++ order.filter (fun fi => (process_file env fi).status == Status.success),
         s.pending_files,
         s.failed_files ++ order.filter (fun fi => (process_file env fi).status == Status.failure)⟩
  | [], s => by simp
  | fi :: rest, s => by
    rw [List.foldl_cons, foldl_process_result env rest (process_result env s fi)]
    unfold process_result
    cases h : (process_file env fi).status <;>
      simp [h, List.filter_cons]

theorem lookup_runSummary_success (s : SchedulerState) :
    (runSummary s).lookup "success" = some s.completed_files.length := rfl

theorem lookup_runSummary_failure (s : SchedulerState) :
    (runSummary s).lookup "failure" = some s.failed_files.length := rfl

theorem lookup_runSummary_skipped (s : SchedulerState) :
    (runSummary s).lookup "skipped" = some 0 := rfl

theorem lookup_runSummary_total (s : SchedulerState) :
    (runSummary s).lookup "total" = some s.pending_files.length := rfl

theorem lookup_runSummary_duration (s : SchedulerState) :
    (runSummary s).lookup "total_duration" = none := rfl

theorem runSummary_keys (s : SchedulerState) :
    (runSummary s).map Prod.fst = ["success", "failure", "skipped", "total"] := rfl

/-- Inserting `x` with `orderedInsert bySize` puts `x` in front of every
element of equal size: `orderedInsert` only walks past strictly smaller
elements. -/
theorem filter_orderedInsert_size (x : FileInfo) (k : Nat) :
    ∀ l : List FileInfo,
      (l.orderedInsert bySize x).filter (fun f => f.size == k) =
        if x.size == k then x :: l.filter (fun f => f.size == k)
        else l.filter (fun f => f.size == k)
  | [] => by
    by_cases hx : x.size = k <;> simp [List.orderedInsert, hx]
  | y :: ys => by
    by_cases hxy : bySize x y
    · rw [List.orderedInsert_of_le _ _ hxy]
      by_cases hx : x.size = k <;> simp [List.filter_cons, hx]
    · have hlt : y.size < x.size := by
        simpa [bySize, Nat.not_le] using hxy
      have ih := filter_orderedInsert_size x k ys
      by_cases hx : x.size = k
      · have hy : y.size ≠ k := by omega
        simp [List.orderedInsert, if_neg hxy, List.filter_cons, ih, hx, hy]
      · simp [List.orderedInsert, if_neg hxy, List.filter_cons, ih, hx]

/-- Stability of the pending sort: for every size value, the subsequence of
descriptors of that size is unchanged, i.e. ties are broken by original
order. -/
theorem filter_sortBySize (k : Nat) :
    ∀ l : List FileInfo,
      (sortBySize l).filter (fun f => f.size == k) = l.filter (fun f => f.size == k)
  | [] => rfl
  | x :: xs => by
    have ih := filter_sortBySize k xs
    rw [show sortBySize (x :: xs) = (sortBySize xs).orderedInsert bySize x from rfl,
      filter_orderedInsert_size, ih, List.filter_cons]

/-! ### Claims -/

/-- Claim C4: for every input descriptor list and stored checkpoint,
`create_task_queue` restores state by partitioning the input list into
`completed` (input descriptors whose path appears in the checkpoint's completed
set, in input order) and `pending` (exactly the remaining input descriptors,
including ones the checkpoint never saw); checkpoint entries whose path is
absent from the input list are dropped, since both resulting lists are drawn
from the input list alone. -/
theorem c4_restore_partitions_input (s : SchedulerState) (cp : Checkpoint)
    (file_list : List FileInfo) :
    (create_task_queue s (some cp) file_list).completed_files =
        file_list.filter (fun f => (cp.completed.map (fun g => g.path)).contains f.path)
    ∧ (create_task_queue s (some cp) file_list).pending_files.Perm
        (file_list.filter (fun f => !((cp.completed.map (fun g => g.path)).contains f.path)))
    ∧ (create_task_queue s (some cp) file_list).failed_files = s.failed_files := by
  refine ⟨rfl, ?_, rfl⟩
  exact List.perm_insertionSort bySize _

/-- Claim C5: after `create_task_queue` the pending queue is exactly the
restored pending list sorted ascending by size; it is sorted, a permutation of
the pre-sort pending list, ties are broken by original discovery order (for
each size value the subsequence of descriptors of that size is unchanged), and
on the example sizes `[300, 10, 200]` the result is ordered `[10, 200, 300]`. -/
theorem c5_pending_sorted_stable (s : SchedulerState) (checkpoint : Option Checkpoint)
    (file_list : List FileInfo) :
    (create_task_queue s checkpoint file_list).pending_files =
        sortBySize (queue_before_sort s checkpoint file_list).pending_files
    ∧ (create_task_queue s checkpoint file_list).pending_files.Pairwise bySize
    ∧ (create_task_queue s checkpoint file_list).pending_files.Perm
        (queue_before_sort s checkpoint file_list).pending_files
    ∧ (∀ k : Nat,
        (create_task_queue s checkpoint file_list).pending_files.filter (fun f => f.size == k) =
          (queue_before_sort s checkpoint file_list).pending_files.filter (fun f => f.size == k))
    ∧ sortBySize [fA, fB, fC] = [fB, fC, fA] := by
  refine ⟨rfl, List.sorted_insertionSort bySize _, List.perm_insertionSort bySize _,
    fun k => filter_sortBySize k _, by decide⟩

/-- Claim C9: a malformed (`JSONDecodeError`) or unreadable (`IOError`)
checkpoint file makes `load_checkpoint` return `None` without raising, and the
run proceeds through `create_task_queue` exactly as if no checkpoint file
existed. -/
theorem c9_bad_checkpoint_treated_as_absent (msg : String) (s : SchedulerState)
    (file_list : List FileInfo) :
    load_checkpoint (CheckpointFileState.malformed msg) = none
    ∧ load_checkpoint (CheckpointFileState.unreadable msg) = none
    ∧ create_task_queue s (load_checkpoint (CheckpointFileState.malformed msg)) file_list =
        create_task_queue s (load_checkpoint CheckpointFileState.missing) file_list
    ∧ create_task_queue s (load_checkpoint (CheckpointFileState.unreadable msg)) file_list =
        create_task_queue s (load_checkpoint CheckpointFileState.missing) file_list :=
  ⟨rfl, rfl, rfl, rfl⟩

/-- Claim C6: when a descriptor's output path already exists and overwrite is
not requested, `_process_file` resolves to a `skipped` result with zero
duration and the converter is invoked zero times. -/
theorem c6_skip_if_exists (env : Env) (fi : FileInfo)
    (hexists : env.output_exists fi.output_path = true)
    (hoverwrite : env.overwrite = false) :
    process_file_instr env fi =
      ({ file_info := fi, status := Status.skipped, message := "输出文件已存在",
         duration := 0, output_path := some fi.output_path }, 0) := by
  simp [process_file_instr, hexists, hoverwrite]

/-- Witness for C6 at the concrete descriptor `fB` under `envSkip`. -/
theorem c6_skip_if_exists_witness :
    envSkip.output_exists fB.output_path = true
    ∧ envSkip.overwrite = false
    ∧ process_file_instr envSkip fB =
        ({ file_info := fB, status := Status.skipped, message := "输出文件已存在",
           duration := 0, output_path := some fB.output_path }, 0) :=
  ⟨rfl, rfl, c6_skip_if_exists envSkip fB rfl rfl⟩

/-- Claim C7: when the skip branch is not taken and the converter raises, the
fault is caught inside `_process_file` and turned into a `failure` result (with
the exception text in the message); `_process_file` returns an ordinary result
dict, so no converter exception crosses the per-task boundary. -/
theorem c7_converter_fault_downgraded (env : Env) (fi : FileInfo) (e : String)
    (hskip : (env.output_exists fi.output_path && !env.overwrite) = false)
    (hraise : env.convert_file fi = Except.error e) :
    process_file_instr env fi =
      ({ file_info := fi, status := Status.failure,
         message := "处理文件时出错: " ++ e, duration := 0, output_path := none }, 1)
    ∧ (process_file env fi).status = Status.failure := by
  refine ⟨?_, ?_⟩ <;> simp [process_file, process_file_instr, hskip, hraise]

/-- Witness for C7 at the concrete descriptor `fB` under `envRaise`. -/
theorem c7_converter_fault_downgraded_witness :
    (envRaise.output_exists fB.output_path && !envRaise.overwrite) = false
    ∧ envRaise.convert_file fB = Except.error "磁盘读取失败"
    ∧ (process_file_instr envRaise fB =
        ({ file_info := fB, status := Status.failure,
           message := "处理文件时出错: " ++ "磁盘读取失败", duration := 0,
           output_path := none }, 1)
      ∧ (process_file envRaise fB).status = Status.failure) :=
  ⟨rfl, rfl, c7_converter_fault_downgraded envRaise fB "磁盘读取失败" rfl rfl⟩

/-- On a non-empty pending list, `process_queue` runs the result loop over the
arrival order and returns the folded state, its summary, and a created pool. -/
theorem process_queue_nonempty (env : Env) (order : List FileInfo) (s : SchedulerState)
    (h : s.pending_files ≠ []) :
    process_queue env order s =
      (order.foldl (process_result env) s,
       runSummary (order.foldl (process_result env) s), true) := by
  have hne : s.pending_files.isEmpty = false := by
    cases hp : s.pending_files with
    | nil => exact absurd hp h
    | cons a l => rfl
  simp [process_queue, hne]

/-- Claim C1 (amended): once `process_queue` returns from an uninterrupted run
whose arrival order is a permutation of the pending list, `pending_files` is
exactly the entry pending list (its count is the full dispatched count, not 0),
`completed_files` and `failed_files` grew by the success and failure results,
and therefore completed + failed + pending counts sum to the entry sums plus
the success and failure counts — descriptors are duplicated between `pending`
and `completed`/`failed` rather than moved, so the three sets neither stay
disjoint nor sum to the input total. -/
theorem c1_sets_after_process_queue (env : Env) (order : List FileInfo)
    (s : SchedulerState) (horder : order.Perm s.pending_files) :
    ((process_queue env order s).1).pending_files = s.pending_files
    ∧ ((process_queue env order s).1).completed_files.length
        = s.completed_files.length
          + order.countP (fun fi => (process_file env fi).status == Status.success)
    ∧ ((process_queue env order s).1).failed_files.length
        = s.failed_files.length
          + order.countP (fun fi => (process_file env fi).status == Status.failure)
    ∧ ((process_queue env order s).1).completed_files.length
        + ((process_queue env order s).1).failed_files.length
        + ((process_queue env order s).1).pending_files.length
      = s.completed_files.length + s.failed_files.length + s.pending_files.length
        + order.countP (fun fi => (process_file env fi).status == Status.success)
        + order.countP (fun fi => (process_file env fi).status == Status.failure) := by
  by_cases hempty : s.pending_files = []
  · have hord : order = [] := List.Perm.eq_nil (by rwa [hempty] at horder)
    subst hord
    simp [process_queue, hempty]
  · rw [process_queue_nonempty env order s hempty, foldl_process_result]
    refine ⟨rfl, ?_, ?_, ?_⟩
    · simp only [List.length_append, List.countP_eq_length_filter]
    · simp only [List.length_append, List.countP_eq_length_filter]
    · simp only [List.length_append, List.countP_eq_length_filter]
      omega

/-- Witness for the amended C1 at the single-descriptor state `sOne` under an
all-success environment. -/
theorem c1_sets_after_process_queue_witness :
    [fB].Perm sOne.pending_files
    ∧ (((process_queue envAllSuccess [fB] sOne).1).pending_files = sOne.pending_files
       ∧ ((process_queue envAllSuccess [fB] sOne).1).completed_files.length
           = sOne.completed_files.length
             + [fB].countP (fun fi => (process_file envAllSuccess fi).status == Status.success)
       ∧ ((process_queue envAllSuccess [fB] sOne).1).failed_files.length
           = sOne.failed_files.length
             + [fB].countP (fun fi => (process_file envAllSuccess fi).status == Status.failure)
       ∧ ((process_queue envAllSuccess [fB] sOne).1).completed_files.length
           + ((process_queue envAllSuccess [fB] sOne).1).failed_files.length
           + ((process_queue envAllSuccess [fB] sOne).1).pending_files.length
         = sOne.completed_files.length + sOne.failed_files.length + sOne.pending_files.length
           + [fB].countP (fun fi => (process_file envAllSuccess fi).status == Status.success)
           + [fB].countP (fun fi => (process_file envAllSuccess fi).status == Status.failure)) :=
  ⟨List.Perm.refl _, c1_sets_after_process_queue envAllSuccess [fB] sOne (List.Perm.refl _)⟩

/-- Claim C1 counterexample: a fully successful uninterrupted run over the
two-descriptor input `[fB, fC]`.  At return the three counts sum to 4, not the
input total 2; the pending count is 2, not 0; and `fB` lies in both
`completed_files` and `pending_files`, so the sets are not disjoint and do not
partition the descriptor set. -/
theorem c1_counterexample :
    c1_run.completed_files.length + c1_run.failed_files.length + c1_run.pending_files.length = 4
    ∧ [fB, fC].length = 2
    ∧ c1_run.completed_files.length + c1_run.failed_files.length + c1_run.pending_files.length
        ≠ [fB, fC].length
    ∧ c1_run.pending_files.length ≠ 0
    ∧ fB ∈ c1_run.completed_files
    ∧ fB ∈ c1_run.pending_files := by decide

/-- Claim C2 (amended): in the result loop a Success result appends the
descriptor to `completed_files` and a Failure result appends it to
`failed_files` (nothing is removed from `pending_files`); a Skipped result is
added to neither list, and the `"skipped"` field of the returned summary is the
hard-coded literal 0 regardless of how many results were skipped. -/
theorem c2_result_bookkeeping (env : Env) (order : List FileInfo)
    (s : SchedulerState) (h : s.pending_files ≠ []) :
    ((process_queue env order s).1).completed_files
        = s.completed_files
          ++ order.filter (fun fi => (process_file env fi).status == Status.success)
    ∧ ((process_queue env order s).1).failed_files
        = s.failed_files
          ++ order.filter (fun fi => (process_file env fi).status == Status.failure)
    ∧ ((process_queue env order s).2.1).lookup "skipped" = some 0 := by
  rw [process_queue_nonempty env order s h, foldl_process_result]
  exact ⟨rfl, rfl, rfl⟩

/-- Witness for the amended C2 at the single-descriptor state `sOne` under the
all-skip environment. -/
theorem c2_result_bookkeeping_witness :
    sOne.pending_files ≠ []
    ∧ (((process_queue envSkip [fB] sOne).1).completed_files
          = sOne.completed_files
            ++ [fB].filter (fun fi => (process_file envSkip fi).status == Status.success)
       ∧ ((process_queue envSkip [fB] sOne).1).failed_files
          = sOne.failed_files
            ++ [fB].filter (fun fi => (process_file envSkip fi).status == Status.failure)
       ∧ ((process_queue envSkip [fB] sOne).2.1).lookup "skipped" = some 0) :=
  ⟨by decide, c2_result_bookkeeping envSkip [fB] sOne (by decide)⟩

/-- Claim C2 counterexample: a run over the single descriptor `fB` whose task
resolves to Skipped.  The descriptor is not added to `completed_files`, and the
summary's `"skipped"` field is 0 even though one result was skipped. -/
theorem c2_counterexample :
    (process_file envSkip fB).status = Status.skipped
    ∧ ((process_queue envSkip [fB] sOne).1).completed_files = []
    ∧ fB ∉ ((process_queue envSkip [fB] sOne).1).completed_files
    ∧ ((process_queue envSkip [fB] sOne).2.1).lookup "skipped" = some 0
    ∧ ((process_queue envSkip [fB] sOne).2.1).lookup "skipped" ≠ some 1 := by decide

/-- Claim C3 (amended): the summary returned by `process_queue` after all
dispatched tasks resolve carries exactly the four count fields
`success`/`failure`/`skipped`/`total`, each derived from the final list
lengths; it has no `total_duration` field, so no sum of per-task durations is
reported (durations are only forwarded to the logging collaborator). -/
theorem c3_summary_has_no_duration (env : Env) (order : List FileInfo)
    (s : SchedulerState) (h : s.pending_files ≠ []) :
    ((process_queue env order s).2.1).map Prod.fst
        = ["success", "failure", "skipped", "total"]
    ∧ ((process_queue env order s).2.1).lookup "success"
        = some ((process_queue env order s).1).completed_files.length
    ∧ ((process_queue env order s).2.1).lookup "failure"
        = some ((process_queue env order s).1).failed_files.length
    ∧ ((process_queue env order s).2.1).lookup "total"
        = some ((process_queue env order s).1).pending_files.length
    ∧ ((process_queue env order s).2.1).lookup "total_duration" = none := by
  rw [process_queue_nonempty env order s h]
  exact ⟨rfl, rfl, rfl, rfl, rfl⟩

/-- Witness for the amended C3 at the single-descriptor state `sOne`. -/
theorem c3_summary_has_no_duration_witness :
    sOne.pending_files ≠ []
    ∧ (((process_queue envAllSuccess [fB] sOne).2.1).map Prod.fst
          = ["success", "failure", "skipped", "total"]
       ∧ ((process_queue envAllSuccess [fB] sOne).2.1).lookup "success"
          = some ((process_queue envAllSuccess [fB] sOne).1).completed_files.length
       ∧ ((process_queue envAllSuccess [fB] sOne).2.1).lookup "failure"
          = some ((process_queue envAllSuccess [fB] sOne).1).failed_files.length
       ∧ ((process_queue envAllSuccess [fB] sOne).2.1).lookup "total"
          = some ((process_queue envAllSuccess [fB] sOne).1).pending_files.length
       ∧ ((process_queue envAllSuccess [fB] sOne).2.1).lookup "total_duration" = none) :=
  ⟨by decide, c3_summary_has_no_duration envAllSuccess [fB] sOne (by decide)⟩

/-- Claim C3 counterexample: a successful single-task run whose only task took
nonzero duration — the returned summary has no `total_duration` entry at all
(its keys are exactly the four count fields), so it cannot report the sum of
per-task durations. -/
theorem c3_counterexample :
    (process_file envAllSuccess fB).duration ≠ 0
    ∧ ((process_queue envAllSuccess [fB] sOne).2.1).lookup "total_duration" = none
    ∧ ((process_queue envAllSuccess [fB] sOne).2.1).map Prod.fst
        = ["success", "failure", "skipped", "total"] := by
  refine ⟨?_, by decide, by decide⟩
  show (okResult fB).duration ≠ 0
  norm_num [okResult]

/-- Claim C8 (amended): when `pending_files` is empty at the call (for example
after a checkpoint restore marked every descriptor completed),
`process_queue` immediately returns the literal all-zero summary
`{success: 0, failure: 0, skipped: 0, total: 0}` without creating a worker
pool; the summary carries no duration field. -/
theorem c8_empty_pending_early_return (env : Env) (order : List FileInfo)
    (s : SchedulerState) (h : s.pending_files = []) :
    process_queue env order s = (s, emptySummary, false)
    ∧ emptySummary.lookup "success" = some 0
    ∧ emptySummary.lookup "failure" = some 0
    ∧ emptySummary.lookup "skipped" = some 0
    ∧ emptySummary.lookup "total" = some 0
    ∧ emptySummary.lookup "total_duration" = none := by
  refine ⟨?_, rfl, rfl, rfl, rfl, rfl⟩
  simp [process_queue, h]

/-- Witness for the amended C8 at the all-completed state `sDone`. -/
theorem c8_empty_pending_early_return_witness :
    sDone.pending_files = []
    ∧ (process_queue envAllSuccess [] sDone = (sDone, emptySummary, false)
       ∧ emptySummary.lookup "success" = some 0
       ∧ emptySummary.lookup "failure" = some 0
       ∧ emptySummary.lookup "skipped" = some 0
       ∧ emptySummary.lookup "total" = some 0
       ∧ emptySummary.lookup "total_duration" = none) :=
  ⟨rfl, c8_empty_pending_early_return envAllSuccess [] sDone rfl⟩

/-- Claim C8 counterexample: calling `process_queue` on the all-completed state
`sDone` does return immediately with the all-zero summary and no worker pool,
but the returned summary has no duration field, so it does not report a zero
duration. -/
theorem c8_counterexample :
    sDone.pending_files = []
    ∧ (process_queue envAllSuccess [] sDone).2.2 = false
    ∧ ((process_queue envAllSuccess [] sDone).2.1).lookup "total" = some 0
    ∧ ((process_queue envAllSuccess [] sDone).2.1).lookup "total_duration" = none := by
  decide

/-- Claim C10: for every non-empty pending queue, `process_queue` never removes
descriptors from `pending_files` while processing results, so the `"total"`
field of the returned summary equals the length of the pending list at entry,
whatever the results were. -/
theorem c10_total_equals_entry_pending (env : Env) (order : List FileInfo)
    (s : SchedulerState) (h : s.pending_files ≠ []) :
    ((process_queue env order s).1).pending_files = s.pending_files
    ∧ ((process_queue env order s).2.1).lookup "total" = some s.pending_files.length := by
  rw [process_queue_nonempty env order s h, foldl_process_result]
  exact ⟨rfl, rfl⟩

/-- Witness for C10 at the single-descriptor state `sOne`. -/
theorem c10_total_equals_entry_pending_witness :
    sOne.pending_files ≠ []
    ∧ (((process_queue envAllSuccess [fB] sOne).1).pending_files = sOne.pending_files
       ∧ ((process_queue envAllSuccess [fB] sOne).2.1).lookup "total"
          = some sOne.pending_files.length) :=
  ⟨by decide, c10_total_equals_entry_pending envAllSuccess [fB] sOne (by decide)⟩

end ToMd
